import Mathlib

/-!
Shallow embedding of the `research-agent` repository: the search tool adapter
(`research_agent/tools/search.py`), the agent factory with model fallback
(`research_agent/agent.py`) and the trace orchestrator
(`research_agent/core/tracer.py`), together with theorems settling the
behavioural claims about them.

Conventions: Python exceptions are modelled with `Except`/`Option String`
(the `String` is the exception message); the module-level mutable globals
(`_cached_agent`, `_active_model`, `_session_lines`) are threaded as explicit
state records; external collaborators (the Tavily client, the agent event
stream) are parameters describing what the collaborator did on this call.
-/

namespace ResearchAgent

/-! ## A small JSON value model (for the payloads moved by the search tool) -/

/-- JSON values, as produced by the Tavily client and by `json.dumps`. -/
inductive Json where
  | null : Json
  | bool (b : Bool) : Json
  | num (n : Int) : Json
  | str (s : String) : Json
  | arr (xs : List Json) : Json
  | obj (kvs : List (String × Json)) : Json

/-- Escape one character the way `json.dumps` does (quotes, backslashes,
newlines; other control characters do not occur in the strings we model). -/
def escapeChar (c : Char) : String :=
  if c = '\"' then "\\\""
  else if c = '\\' then "\\\\"
  else if c = '\n' then "\\n"
  else String.mk [c]

/-- Escape a string body the way `json.dumps` does. -/
def escapeJsonString (s : String) : String :=
  String.join (s.toList.map escapeChar)

mutual

/-- Model of `json.dumps` with the default separators. -/
def dumps : Json → String
  | Json.null => "null"
  | Json.bool b => if b then "true" else "false"
  | Json.num n => toString n
  | Json.str s => "\"" ++ escapeJsonString s ++ "\""
  | Json.arr xs => "[" ++ String.intercalate ", " (dumpsList xs) ++ "]"
  | Json.obj kvs => "\x7b" ++ String.intercalate ", " (dumpsObj kvs) ++ "\x7d"

/-- Serialize the elements of a JSON array. -/
def dumpsList : List Json → List String
  | [] => []
  | x :: xs => dumps x :: dumpsList xs

/-- Serialize the key/value pairs of a JSON object. -/
def dumpsObj : List (String × Json) → List String
  | [] => []
  | (k, v) :: kvs => ("\"" ++ escapeJsonString k ++ "\": " ++ dumps v) :: dumpsObj kvs

end

/-! ## Python string helpers used by the source -/

/-- `charsStartWith p c` : the char list `c` starts with the pattern `p`. -/
def charsStartWith : List Char → List Char → Bool
  | [], _ => true
  | _ :: _, [] => false
  | p :: ps, c :: cs => p == c && charsStartWith ps cs

/-- `charsContain p c` : the pattern `p` occurs contiguously inside `c`. -/
def charsContain (pat : List Char) : List Char → Bool
  | [] => charsStartWith pat []
  | c :: cs => charsStartWith pat (c :: cs) || charsContain pat cs

/-- Model of the Python substring test `pat in s`. -/
def strContains (s pat : String) : Bool :=
  charsContain pat.toList s.toList

/-- Model of Python `s.lower()`. -/
def strLower (s : String) : String :=
  String.mk (s.toList.map Char.toLower)

/-- The character `'` (kept out of string literals on purpose). -/
def singleQuote : String := String.mk [Char.ofNat 39]

/-- Model of Python `repr` on a simple string (no embedded quotes occur in
the model identifiers this is applied to). -/
def pyStrRepr (s : String) : String := singleQuote ++ s ++ singleQuote

/-- Model of Python `str(...)` on a list of strings, e.g. how
`f"...{MODELS}..."` and `str([tc["name"] for tc in msg.tool_calls])` render. -/
def pyListRepr (xs : List String) : String :=
  "[" ++ String.intercalate ", " (xs.map pyStrRepr) ++ "]"

/-! ## Search tool adapter — `research_agent/tools/search.py` -/

/-- What the Tavily client did on one `client.search(...)` call: returned a
JSON response, or raised an exception with the given message. -/
inductive SearchOutcome where
  | ok (resp : Json) : SearchOutcome
  | raise (msg : String) : SearchOutcome

/-- Model of Python `dict.get(k, d)` on a JSON object's key/value list. -/
def jsonGetD (kvs : List (String × Json)) (k : String) (d : Json) : Json :=
  match kvs.find? (fun kv => kv.1 == k) with
  | some kv => kv.2
  | none => d

/-- One iteration of the normalization loop of `web_search`
(`search.py` lines 96-106): a mapping entry becomes the normalized record
with the documented defaults; on any other value `r.get(...)` raises
`AttributeError`/`TypeError`, which the loop body catches and skips. -/
def normalizeEntry : Json → Option Json
  | Json.obj kvs =>
      some (Json.obj
        [("title", jsonGetD kvs "title" (Json.str "Untitled")),
         ("url", jsonGetD kvs "url" (Json.str "")),
         ("snippet", jsonGetD kvs "content" (Json.str ""))])
  | _ => none

/-- Model of Python iteration (`for r in ...`): lists yield their elements,
strings their characters, dicts their keys; other values raise `TypeError`
(that raise happens at the `for` statement, outside the per-entry `try`). -/
def pyIter : Json → Except String (List Json)
  | Json.arr xs => Except.ok xs
  | Json.str s => Except.ok (s.toList.map (fun c => Json.str (String.mk [c])))
  | Json.obj kvs => Except.ok (kvs.map (fun kv => Json.str kv.1))
  | _ => Except.error "TypeError: object is not iterable"

/-- Model of `web_search` (`research_agent/tools/search.py` lines 73-111).
`apiKey` models the `TAVILY_API_KEY` environment variable read by
`_get_tavily_client`; `clientSearch` models what `client.search` does for a
given query and `max_results`. `Except.error` is a propagated exception,
`Except.ok` the JSON string returned to the agent. -/
def web_search (apiKey : Option String) (clientSearch : String → Nat → SearchOutcome)
    (query : String) (max_results : Nat) : Except String String :=
  match apiKey with
  | none =>
      Except.error ("TAVILY_API_KEY environment variable is not set. " ++
        "Please set it to use the web_search tool.")
  | some _ =>
    match clientSearch query max_results with
    | SearchOutcome.raise exc =>
        Except.ok (dumps (Json.obj [("error", Json.str ("Search failed: " ++ exc))]))
    | SearchOutcome.ok resp =>
      match resp with
      | Json.obj kvs =>
        match pyIter (jsonGetD kvs "results" (Json.arr [])) with
        | Except.error e => Except.error e
        | Except.ok entries =>
            Except.ok (dumps (Json.arr (entries.filterMap normalizeEntry)))
      | _ => Except.error "AttributeError: object has no attribute get"

/-! ## Agent factory — `research_agent/agent.py` -/

/-- The candidate model list (`agent.py` lines 44-47), tried in order. -/
def MODELS : List String :=
  ["moonshotai/kimi-k2-instruct", "openai/gpt-oss-120b"]

/-- The agent handle built by `create_react_agent`: for the claims we track
the model identifier it is bound to. -/
structure Agent where
  modelId : String
deriving DecidableEq

/-- The module-level mutable state of `agent.py`: `_cached_agent` and
`_active_model`. -/
structure AgentState where
  cachedAgent : Option Agent
  activeModel : String
deriving DecidableEq

/-- The fallback loop of `get_agent` (`agent.py` lines 128-161): try each
candidate; a successful probe sets `_active_model`, builds and caches the
agent; a failed probe falls through to the next candidate; an exhausted list
raises `RuntimeError` naming `MODELS`. The `Nat` counts `llm.invoke("ping")`
probes performed. `probe m = true` models the probe of model `m` returning
without raising. -/
def tryModels (probe : String → Bool) (s : AgentState) :
    List String → Except String Agent × AgentState × Nat
  | [] =>
      (Except.error ("All models are unavailable: " ++ pyListRepr MODELS ++
        ". Check https://groqstatus.com for incidents."), s, 0)
  | m :: rest =>
    if probe m then
      let a : Agent := ⟨m⟩
      (Except.ok a, { cachedAgent := some a, activeModel := m }, 1)
    else
      let r := tryModels probe s rest
      (r.1, r.2.1, r.2.2 + 1)

/-- Model of `get_agent` (`agent.py` lines 103-161): return the cached handle
without probing, otherwise run the fallback loop. -/
def get_agent (probe : String → Bool) (s : AgentState) :
    Except String Agent × AgentState × Nat :=
  match s.cachedAgent with
  | some a => (Except.ok a, s, 0)
  | none => tryModels probe s MODELS

/-- Model of `get_active_model` (`agent.py` lines 164-166). -/
def get_active_model (s : AgentState) : String :=
  s.activeModel

/-- Model of `reset_agent` (`agent.py` lines 169-177): clears only
`_cached_agent`. -/
def reset_agent (s : AgentState) : AgentState :=
  { s with cachedAgent := none }

/-! ## Trace orchestrator — `research_agent/core/tracer.py` -/

/-- One chunk of the agent's `stream_mode="messages"` stream, as classified
by `_run_rich`: an `AIMessageChunk` (with its `tool_call_chunks` — each
entry's `tc.get("name")`, `none` when the key is absent — and its `content`
string), a `ToolMessage`, or any other object (ignored). -/
inductive Chunk where
  | ai (toolCallChunks : List (Option String)) (content : String) : Chunk
  | toolMsg (content : String) : Chunk
  | other : Chunk

/-- How the agent stream ended after yielding its chunks: exhausted normally,
interrupted by the user (`KeyboardInterrupt`), or raising an `Exception`
with the given message. -/
inductive StreamOutcome where
  | normal : StreamOutcome
  | interrupt : StreamOutcome
  | exn (msg : String) : StreamOutcome

/-- The loop state of `_run_rich`: the session lines, the growing
`answer_buffer` and whether a `Live` display is active. -/
structure RichAcc where
  lines : List String
  answerBuffer : String
  liveActive : Bool

/-- The body of the `for chunk, metadata in agent.stream(...)` loop of
`_run_rich` (`tracer.py` lines 164-244). Only session-line appends and the
stateful pieces are modelled; `console.print` rendering has no further
effect on the state. -/
def processChunk (acc : RichAcc) : Chunk → RichAcc
  | Chunk.ai toolCallChunks content =>
    if toolCallChunks ≠ [] then
      toolCallChunks.foldl
        (fun a tc =>
          match tc with
          | some nm =>
            if nm ≠ "" then
              { a with liveActive := false,
                       lines := a.lines ++ ["🧠 Tool call: " ++ nm] }
            else a
          | none => a)
        acc
    else if content ≠ "" then
      { acc with answerBuffer := acc.answerBuffer ++ content, liveActive := true }
    else acc
  | Chunk.toolMsg content =>
      { acc with liveActive := false,
                 lines := acc.lines ++ ["🔧 Tool result: " ++ content.take 400] }
  | Chunk.other => acc

/-- Consume the chunks the stream yielded before its outcome. -/
def processChunks (acc : RichAcc) (events : List Chunk) : RichAcc :=
  events.foldl processChunk acc

/-- Model of `_run_rich` (`tracer.py` lines 123-294), from the stream loop
onward: consume the chunks, then handle the stream outcome — a
`KeyboardInterrupt` appends the interruption line; an `Exception` whose
message contains "503" or "over capacity" resets the agent cache, while the
"429"/rate branch and the generic branch differ only in rendering; every
`Exception` path appends the error line. The `finally` block only stops the
`Live` display. The final-answer append sits after the `try` statement, so
it runs on every path. Returns the session lines and the agent state. -/
def runRich (ag : AgentState) (events : List Chunk) (outcome : StreamOutcome)
    (lines : List String) : List String × AgentState :=
  let acc := processChunks { lines := lines, answerBuffer := "", liveActive := false } events
  let handled : RichAcc × AgentState :=
    match outcome with
    | StreamOutcome.normal => (acc, ag)
    | StreamOutcome.interrupt =>
        ({ acc with lines := acc.lines ++ ["⚠️  Interrupted by user."] }, ag)
    | StreamOutcome.exn msg =>
        let ag2 :=
          if strContains msg "503" || strContains msg "over capacity" then
            reset_agent ag
          else ag
        ({ acc with lines := acc.lines ++ ["❌ Error: " ++ msg] }, ag2)
  let acc2 := handled.1
  let finalLines :=
    if acc2.answerBuffer ≠ "" then
      acc2.lines ++ ["✅ Final answer:\n" ++ acc2.answerBuffer]
    else acc2.lines
  (finalLines, handled.2)

/-- One value of the `stream_mode="values"` stream used by `_run_plain`,
after taking `chunk["messages"][-1]`: an `AIMessage` (content plus the list
of its tool-call names), a `ToolMessage`, or anything else. -/
inductive PlainMsg where
  | aiMsg (content : String) (toolCalls : List String) : PlainMsg
  | toolMsg (content : String) : PlainMsg
  | other : PlainMsg

/-- The body of the `for chunk in agent.stream(...)` loop of `_run_plain`
(`tracer.py` lines 310-336); each printed line is also appended to the
session lines. -/
def processPlainMsg (lines : List String) : PlainMsg → List String
  | PlainMsg.aiMsg content toolCalls =>
    if toolCalls ≠ [] then
      (if content ≠ "" then lines ++ ["Thinking: " ++ content] else lines) ++
        ["Tool call: " ++ pyListRepr toolCalls]
    else if content ≠ "" then
      lines ++ ["Final answer:\n" ++ content]
    else lines
  | PlainMsg.toolMsg content => lines ++ ["Tool result: " ++ content.take 250]
  | PlainMsg.other => lines

/-- Model of `_run_plain` (`tracer.py` lines 301-340): the `except Exception`
handler appends an error line and returns normally, but `KeyboardInterrupt`
is not an `Exception` in Python, so an interruption propagates out (first
component `some msg` models a propagated exception). -/
def runPlain (events : List PlainMsg) (outcome : StreamOutcome)
    (lines : List String) : Option String × List String :=
  let lines2 := events.foldl processPlainMsg lines
  match outcome with
  | StreamOutcome.normal => (none, lines2)
  | StreamOutcome.interrupt => (some "KeyboardInterrupt", lines2)
  | StreamOutcome.exn msg => (none, lines2 ++ ["Error: " ++ msg])

/-- Which display mode `run_with_trace` routed to (decided by the
`PLAIN_OUTPUT` environment variable), bundled with the stream that the agent
produced for this question in that mode. -/
inductive StreamInput where
  | rich (events : List Chunk) (outcome : StreamOutcome) : StreamInput
  | plain (events : List PlainMsg) (outcome : StreamOutcome) : StreamInput

/-- The module-level mutable state touched by the tracer: `_session_lines`
together with the agent factory state it drives. -/
structure TraceState where
  sessionLines : List String
  agentState : AgentState

/-- The question header appended by `run_with_trace` (`tracer.py` lines
69-72); `ts` is `datetime.now().isoformat()`. -/
def headerLines (question ts : String) : List String :=
  ["\n" ++ String.mk (List.replicate 60 '='),
   "Question: " ++ question,
   "Timestamp: " ++ ts,
   String.mk (List.replicate 60 '-')]

/-- Model of `run_with_trace` (`tracer.py` lines 55-78): acquire the agent
(an exception from `get_agent` propagates before any line is appended),
append the question header, then dispatch on the display mode. The first
component is `some msg` when `run_with_trace` raised, `none` when it
returned normally. -/
def run_with_trace (probe : String → Bool) (question ts : String)
    (input : StreamInput) (st : TraceState) : Option String × TraceState :=
  let g := get_agent probe st.agentState
  match g.1 with
  | Except.error e => (some e, { st with agentState := g.2.1 })
  | Except.ok _ =>
    let lines0 := st.sessionLines ++ headerLines question ts
    match input with
    | StreamInput.rich events outcome =>
      let r := runRich g.2.1 events outcome lines0
      (none, { sessionLines := r.1, agentState := r.2 })
    | StreamInput.plain events outcome =>
      let r := runPlain events outcome lines0
      (r.1, { sessionLines := r.2, agentState := g.2.1 })

/-- Model of `save_session_trace` (`tracer.py` lines 81-111): on an empty
trace, return immediately — no file, no console output. Otherwise write one
file under `outputs/` and print a notice. Returns the (unchanged) session
lines, the file written as `(path, contents)`, and the console output;
`ts` is `datetime.now().strftime("%Y%m%d_%H%M%S_%f")`. -/
def save_session_trace (lines : List String) (ts : String) (plain : Bool) :
    List String × Option (String × String) × List String :=
  if lines = [] then (lines, none, [])
  else
    let filepath := "outputs/session_" ++ ts ++ ".txt"
    let notice :=
      if plain then "Session trace saved to " ++ filepath
      else "📁 Trace saved to " ++ filepath
    (lines, some (filepath, String.intercalate "\n" lines), [notice])

/-- Model of `clear_session` (`tracer.py` lines 114-116). -/
def clear_session (_lines : List String) : List String := []

/-- One operation of a CLI session touching the session trace: a question
run or a flush. (`clear_session` is kept separate: it is the one explicit
operation allowed to remove lines.) -/
inductive TraceOp where
  | runOp (probe : String → Bool) (question ts : String) (input : StreamInput) : TraceOp
  | flushOp (ts : String) (plain : Bool) : TraceOp

/-- Apply one session operation to the tracer state. -/
def applyOp (st : TraceState) : TraceOp → TraceState
  | TraceOp.runOp probe question ts input => (run_with_trace probe question ts input st).2
  | TraceOp.flushOp ts plain =>
      { st with sessionLines := (save_session_trace st.sessionLines ts plain).1 }

/-! ## Shared lemmas -/

/-- A fold whose step only appends to `lines` only appends to `lines`. -/
theorem foldl_rich_extends {α : Type} (f : RichAcc → α → RichAcc)
    (h : ∀ acc x, ∃ t, (f acc x).lines = acc.lines ++ t) :
    ∀ (xs : List α) (acc : RichAcc), ∃ t, (xs.foldl f acc).lines = acc.lines ++ t := by
  intro xs
  induction xs with
  | nil => intro acc; exact ⟨[], by simp⟩
  | cons x xs ih =>
    intro acc
    obtain ⟨t1, h1⟩ := h acc x
    obtain ⟨t2, h2⟩ := ih (f acc x)
    refine ⟨t1 ++ t2, ?_⟩
    rw [List.foldl_cons, h2, h1, List.append_assoc]

/-- Each loop iteration of `_run_rich` only appends session lines. -/
theorem processChunk_extends (acc : RichAcc) (c : Chunk) :
    ∃ t, (processChunk acc c).lines = acc.lines ++ t := by
  cases c with
  | ai toolCallChunks content =>
    simp only [processChunk]
    split
    · apply foldl_rich_extends
      intro a tc
      cases tc with
      | none => exact ⟨[], by simp⟩
      | some nm =>
        by_cases hnm : nm = ""
        · exact ⟨[], by simp [hnm]⟩
        · exact ⟨["🧠 Tool call: " ++ nm], by simp [hnm]⟩
    · split
      · exact ⟨[], by simp⟩
      · exact ⟨[], by simp⟩
  | toolMsg content => exact ⟨["🔧 Tool result: " ++ content.take 400], by simp [processChunk]⟩
  | other => exact ⟨[], by simp [processChunk]⟩

/-- The whole `_run_rich` stream loop only appends session lines. -/
theorem processChunks_extends (acc : RichAcc) (events : List Chunk) :
    ∃ t, (processChunks acc events).lines = acc.lines ++ t :=
  foldl_rich_extends processChunk processChunk_extends events acc

/-- `_run_rich` only appends session lines. -/
theorem runRich_extends (ag : AgentState) (events : List Chunk)
    (outcome : StreamOutcome) (lines : List String) :
    ∃ t, (runRich ag events outcome lines).1 = lines ++ t := by
  obtain ⟨t0, h0⟩ :=
    processChunks_extends { lines := lines, answerBuffer := "", liveActive := false } events
  cases outcome with
  | normal =>
    simp only [runRich]
    split
    · exact ⟨_, by rw [h0, List.append_assoc]⟩
    · exact ⟨t0, h0⟩
  | interrupt =>
    simp only [runRich]
    split
    · exact ⟨t0 ++ ["⚠️  Interrupted by user.", "✅ Final answer:\n" ++
        (processChunks { lines := lines, answerBuffer := "", liveActive := false }
          events).answerBuffer], by rw [h0]; simp⟩
    · exact ⟨_, by rw [h0, List.append_assoc]⟩
  | exn msg =>
    simp only [runRich]
    split
    · exact ⟨t0 ++ ["❌ Error: " ++ msg, "✅ Final answer:\n" ++
        (processChunks { lines := lines, answerBuffer := "", liveActive := false }
          events).answerBuffer], by rw [h0]; simp⟩
    · exact ⟨_, by rw [h0, List.append_assoc]⟩

/-- Each loop iteration of `_run_plain` only appends session lines. -/
theorem processPlainMsg_extends (lines : List String) (m : PlainMsg) :
    ∃ t, processPlainMsg lines m = lines ++ t := by
  cases m with
  | aiMsg content toolCalls =>
    simp only [processPlainMsg]
    split
    · by_cases hc : content = ""
      · exact ⟨["Tool call: " ++ pyListRepr toolCalls], by simp [hc]⟩
      · exact ⟨["Thinking: " ++ content, "Tool call: " ++ pyListRepr toolCalls],
          by simp [hc]⟩
    · split
      · exact ⟨["Final answer:\n" ++ content], rfl⟩
      · exact ⟨[], by simp⟩
  | toolMsg content => exact ⟨["Tool result: " ++ content.take 250], by simp [processPlainMsg]⟩
  | other => exact ⟨[], by simp [processPlainMsg]⟩

/-- A fold over `processPlainMsg` only appends session lines. -/
theorem foldl_plain_extends :
    ∀ (xs : List PlainMsg) (lines : List String),
      ∃ t, xs.foldl processPlainMsg lines = lines ++ t := by
  intro xs
  induction xs with
  | nil => intro lines; exact ⟨[], by simp⟩
  | cons x xs ih =>
    intro lines
    obtain ⟨t1, h1⟩ := processPlainMsg_extends lines x
    obtain ⟨t2, h2⟩ := ih (processPlainMsg lines x)
    refine ⟨t1 ++ t2, ?_⟩
    rw [List.foldl_cons, h2, h1, List.append_assoc]

/-- `_run_plain` only appends session lines. -/
theorem runPlain_extends (events : List PlainMsg) (outcome : StreamOutcome)
    (lines : List String) :
    ∃ t, (runPlain events outcome lines).2 = lines ++ t := by
  obtain ⟨t0, h0⟩ := foldl_plain_extends events lines
  unfold runPlain
  cases outcome <;> simp [h0]

/-- `run_with_trace` only appends session lines (also when it raises). -/
theorem run_with_trace_extends (probe : String → Bool) (q ts : String)
    (input : StreamInput) (st : TraceState) :
    ∃ t, (run_with_trace probe q ts input st).2.sessionLines = st.sessionLines ++ t := by
  unfold run_with_trace
  cases hg : (get_agent probe st.agentState).1 with
  | error e => exact ⟨[], by simp [hg]⟩
  | ok a =>
    cases input with
    | rich events outcome =>
      obtain ⟨t, ht⟩ :=
        runRich_extends (get_agent probe st.agentState).2.1 events outcome
          (st.sessionLines ++ headerLines q ts)
      exact ⟨headerLines q ts ++ t, by simp [hg, ht]⟩
    | plain events outcome =>
      obtain ⟨t, ht⟩ :=
        runPlain_extends events outcome (st.sessionLines ++ headerLines q ts)
      exact ⟨headerLines q ts ++ t, by simp [hg, ht]⟩

/-- `save_session_trace` returns the session lines unchanged. -/
theorem save_session_trace_fst (lines : List String) (ts : String) (plain : Bool) :
    (save_session_trace lines ts plain).1 = lines := by
  unfold save_session_trace
  split <;> rfl

/-- One session operation only appends session lines. -/
theorem applyOp_extends (st : TraceState) (op : TraceOp) :
    ∃ t, (applyOp st op).sessionLines = st.sessionLines ++ t := by
  cases op with
  | runOp probe q ts input => exact run_with_trace_extends probe q ts input st
  | flushOp ts plain => exact ⟨[], by simp [applyOp, save_session_trace_fst]⟩

/-- The fallback loop always performs at least one probe. -/
theorem tryModels_probes_pos (probe : String → Bool) (s : AgentState) :
    1 ≤ (tryModels probe s MODELS).2.2 := by
  unfold MODELS tryModels
  cases h1 : probe "moonshotai/kimi-k2-instruct" <;> simp [h1]

/-! ## C1 — provider failure is converted to an error payload -/

/-- C1: for every query, when the provider call raises, `web_search` does not
propagate the exception: it returns (`Except.ok`) the JSON encoding of an
object whose `"error"` key holds a string beginning with `"Search failed: "`
followed by the failure message. -/
theorem c1_provider_failure_returns_error_json :
    ∀ (key q msg : String) (n : Nat),
      web_search (some key) (fun _ _ => SearchOutcome.raise msg) q n
        = Except.ok (dumps (Json.obj [("error", Json.str ("Search failed: " ++ msg))]))
      ∧ ∃ rest, "Search failed: " ++ msg = "Search failed: " ++ rest :=
  fun _ _ msg _ => ⟨rfl, msg, rfl⟩

/-! ## C5 — malformed search-result entries are defaulted or skipped -/

/-- C5: for every upstream response whose `"results"` field is a list, each
mapping entry is normalized with `title` defaulting to `"Untitled"`, `url`
to `""` and `snippet` (from the upstream `content` key) to `""`; non-mapping
entries are skipped; `web_search` returns (never raises) the JSON encoding
of exactly the normalized entries. -/
theorem c5_malformed_entries_defaulted_or_skipped :
    ∀ (key q : String) (n : Nat) (kvs : List (String × Json)) (entries : List Json),
      jsonGetD kvs "results" (Json.arr []) = Json.arr entries →
      web_search (some key) (fun _ _ => SearchOutcome.ok (Json.obj kvs)) q n
        = Except.ok (dumps (Json.arr (entries.filterMap normalizeEntry)))
      ∧ (∀ e ∈ entries, ∀ m, e = Json.obj m →
          normalizeEntry e = some (Json.obj
            [("title", jsonGetD m "title" (Json.str "Untitled")),
             ("url", jsonGetD m "url" (Json.str "")),
             ("snippet", jsonGetD m "content" (Json.str ""))]))
      ∧ (∀ e ∈ entries, (∀ m, e ≠ Json.obj m) → normalizeEntry e = none) := by
  intro key q n kvs entries h
  refine ⟨?_, ?_, ?_⟩
  · simp only [web_search]
    rw [h]
    rfl
  · intro e _ m he
    subst he
    rfl
  · intro e _ hne
    cases e with
    | obj m => exact absurd rfl (hne m)
    | null => rfl
    | bool b => rfl
    | num i => rfl
    | str s => rfl
    | arr xs => rfl

/-- C5 witness: a batch with a `null` entry, a string entry and a mapping
missing `title` and `content` is normalized without raising. -/
theorem c5_witness :
    web_search (some "key")
        (fun _ _ => SearchOutcome.ok (Json.obj
          [("results", Json.arr
            [Json.null, Json.str "junk",
             Json.obj [("url", Json.str "https://example.com")]])]))
        "capital of France" 6
      = Except.ok (dumps (Json.arr
          ([Json.null, Json.str "junk",
            Json.obj [("url", Json.str "https://example.com")]].filterMap normalizeEntry))) :=
  (c5_malformed_entries_defaulted_or_skipped "key" "capital of France" 6
    [("results", Json.arr
      [Json.null, Json.str "junk",
       Json.obj [("url", Json.str "https://example.com")]])]
    [Json.null, Json.str "junk", Json.obj [("url", Json.str "https://example.com")]]
    rfl).1

/-! ## C2 — uncached `get_agent` probes candidates in order, with fallback -/

/-- C2: with no cached handle, `get_agent` probes the candidates in list
order: a successful primary probe selects the primary; a failed primary
probe followed by a successful fallback probe selects the fallback, which
`get_active_model` then reports; if every probe raises, `get_agent` fails
with an error naming both attempted candidates. -/
theorem c2_fallback_probes_in_order :
    ∀ (probe : String → Bool) (s : AgentState),
      s.cachedAgent = none →
      (probe "moonshotai/kimi-k2-instruct" = true →
        (get_agent probe s).1 = Except.ok ⟨"moonshotai/kimi-k2-instruct"⟩
        ∧ get_active_model (get_agent probe s).2.1 = "moonshotai/kimi-k2-instruct")
      ∧ (probe "moonshotai/kimi-k2-instruct" = false → probe "openai/gpt-oss-120b" = true →
        (get_agent probe s).1 = Except.ok ⟨"openai/gpt-oss-120b"⟩
        ∧ get_active_model (get_agent probe s).2.1 = "openai/gpt-oss-120b")
      ∧ (probe "moonshotai/kimi-k2-instruct" = false → probe "openai/gpt-oss-120b" = false →
        ∃ e, (get_agent probe s).1 = Except.error e
          ∧ strContains e "moonshotai/kimi-k2-instruct" = true
          ∧ strContains e "openai/gpt-oss-120b" = true) := by
  intro probe s hc
  refine ⟨?_, ?_, ?_⟩
  · intro h1
    constructor <;> simp [get_agent, hc, tryModels, MODELS, h1, get_active_model]
  · intro h1 h2
    constructor <;> simp [get_agent, hc, tryModels, MODELS, h1, h2, get_active_model]
  · intro h1 h2
    refine ⟨"All models are unavailable: " ++ pyListRepr MODELS ++
      ". Check https://groqstatus.com for incidents.", ?_, ?_, ?_⟩
    · simp [get_agent, hc, tryModels, MODELS, h1, h2]
    · decide
    · decide

/-- C2 witness: with every probe failing, `get_agent` fails with an error
naming both candidates. -/
theorem c2_witness :
    ∃ e, (get_agent (fun _ => false) ⟨none, ""⟩).1 = Except.error e
      ∧ strContains e "moonshotai/kimi-k2-instruct" = true
      ∧ strContains e "openai/gpt-oss-120b" = true :=
  (c2_fallback_probes_in_order (fun _ => false) ⟨none, ""⟩ rfl).2.2 rfl rfl

/-! ## C6 — cached `get_agent` is idempotent and probes exactly once -/

/-- C6: with a cached handle, `get_agent` returns that identical handle,
leaves the state unchanged and performs no probe; in particular two
consecutive calls from an uncached state whose primary probe succeeds
perform exactly one probe in total and return the same handle. -/
theorem c6_cached_get_agent_idempotent :
    (∀ (probe : String → Bool) (s : AgentState) (a : Agent),
      s.cachedAgent = some a → get_agent probe s = (Except.ok a, s, 0))
    ∧ (∀ (probe : String → Bool) (s : AgentState),
      s.cachedAgent = none → probe "moonshotai/kimi-k2-instruct" = true →
        (get_agent probe (get_agent probe s).2.1).1 = (get_agent probe s).1
        ∧ (get_agent probe s).2.2 + (get_agent probe (get_agent probe s).2.1).2.2 = 1) := by
  constructor
  · intro probe s a h
    simp [get_agent, h]
  · intro probe s hc h1
    constructor <;> simp [get_agent, hc, tryModels, MODELS, h1]

/-- C6 witness: concrete two-call scenario with a succeeding primary probe —
same handle both times, one probe in total. -/
theorem c6_witness :
    (get_agent (fun _ => true) ⟨some ⟨"m"⟩, "m"⟩ = (Except.ok ⟨"m"⟩, ⟨some ⟨"m"⟩, "m"⟩, 0))
    ∧ (get_agent (fun _ => true) (get_agent (fun _ => true) ⟨none, ""⟩).2.1).1
        = (get_agent (fun _ => true) ⟨none, ""⟩).1
    ∧ (get_agent (fun _ => true) ⟨none, ""⟩).2.2
        + (get_agent (fun _ => true) (get_agent (fun _ => true) ⟨none, ""⟩).2.1).2.2 = 1 :=
  ⟨c6_cached_get_agent_idempotent.1 (fun _ => true) ⟨some ⟨"m"⟩, "m"⟩ ⟨"m"⟩ rfl,
   (c6_cached_get_agent_idempotent.2 (fun _ => true) ⟨none, ""⟩ rfl rfl).1,
   (c6_cached_get_agent_idempotent.2 (fun _ => true) ⟨none, ""⟩ rfl rfl).2⟩

/-! ## C8 — `reset_agent` clears only the cache; `get_active_model` frame -/

/-- C8: `reset_agent` clears only the cached handle and leaves
`get_active_model` unchanged; a failing `get_agent` leaves the whole state
(hence the active model) unchanged, and a successful uncached `get_agent`
updates the active model to the selected handle's model. -/
theorem c8_reset_agent_frame :
    (∀ s : AgentState,
      reset_agent s = { cachedAgent := none, activeModel := s.activeModel })
    ∧ (∀ s : AgentState, get_active_model (reset_agent s) = get_active_model s)
    ∧ (∀ (probe : String → Bool) (s : AgentState) (e : String),
      (get_agent probe s).1 = Except.error e → (get_agent probe s).2.1 = s)
    ∧ (∀ (probe : String → Bool) (s : AgentState) (a : Agent),
      s.cachedAgent = none → (get_agent probe s).1 = Except.ok a →
        get_active_model (get_agent probe s).2.1 = a.modelId) := by
  refine ⟨fun s => rfl, fun s => rfl, ?_, ?_⟩
  · intro probe s e h
    match hc : s.cachedAgent with
    | some a => simp [get_agent, hc] at h
    | none =>
      cases h1 : probe "moonshotai/kimi-k2-instruct" <;>
        cases h2 : probe "openai/gpt-oss-120b" <;>
          simp [get_agent, hc, tryModels, MODELS, h1, h2] at h ⊢
  · intro probe s a hc h
    cases h1 : probe "moonshotai/kimi-k2-instruct" <;>
      cases h2 : probe "openai/gpt-oss-120b" <;>
        simp [get_agent, hc, tryModels, MODELS, h1, h2, get_active_model] at h ⊢ <;>
          simp [← h]

/-- C8 witness: resetting a state with an active model keeps the reported
model; a failing `get_agent` leaves the state unchanged; a succeeding
uncached `get_agent` reports the selected model. -/
theorem c8_witness :
    get_active_model (reset_agent ⟨some ⟨"m"⟩, "m"⟩) = get_active_model ⟨some ⟨"m"⟩, "m"⟩
    ∧ (get_agent (fun _ => false) ⟨none, "m"⟩).2.1 = ⟨none, "m"⟩
    ∧ get_active_model (get_agent (fun _ => true) ⟨none, ""⟩).2.1
        = (⟨"moonshotai/kimi-k2-instruct"⟩ : Agent).modelId :=
  ⟨c8_reset_agent_frame.2.1 ⟨some ⟨"m"⟩, "m"⟩,
   c8_reset_agent_frame.2.2.1 (fun _ => false) ⟨none, "m"⟩ _ rfl,
   c8_reset_agent_frame.2.2.2 (fun _ => true) ⟨none, ""⟩ ⟨"moonshotai/kimi-k2-instruct"⟩ rfl rfl⟩

/-! ## C3 / C4 / C7 — stream failure handling in `_run_rich` -/

/-- The agent state `_run_rich` leaves behind after a stream `Exception`:
the cache is reset exactly when the message matches the 503/over-capacity
branch. -/
theorem runRich_exn_agent (ag : AgentState) (events : List Chunk) (msg : String)
    (lines : List String) :
    (runRich ag events (StreamOutcome.exn msg) lines).2
      = if strContains msg "503" || strContains msg "over capacity" then
          reset_agent ag
        else ag := rfl

/-- A stream `Exception` always appends the error session line. -/
theorem runRich_exn_mem (ag : AgentState) (events : List Chunk) (msg : String)
    (lines : List String) :
    ("❌ Error: " ++ msg) ∈ (runRich ag events (StreamOutcome.exn msg) lines).1 := by
  simp only [runRich]
  split <;> simp

/-- A `KeyboardInterrupt` in `_run_rich` leaves the agent state untouched. -/
theorem runRich_interrupt_agent (ag : AgentState) (events : List Chunk)
    (lines : List String) :
    (runRich ag events StreamOutcome.interrupt lines).2 = ag := rfl

/-- A `KeyboardInterrupt` in `_run_rich` appends the interruption line. -/
theorem runRich_interrupt_mem (ag : AgentState) (events : List Chunk)
    (lines : List String) :
    "⚠️  Interrupted by user." ∈ (runRich ag events StreamOutcome.interrupt lines).1 := by
  simp only [runRich]
  split <;> simp

/-- C3: when the agent stream raises an exception whose message contains
"503" (rich mode, the cited `_run_rich` path), `run_with_trace` returns
normally, appends an error session line, clears the cached agent handle,
and the next `get_agent` call probes again (at least one probe). -/
theorem c3_stream_503_returns_normally_and_invalidates :
    ∀ (probe : String → Bool) (st : TraceState) (a : Agent) (q ts msg : String)
      (events : List Chunk),
      st.agentState.cachedAgent = some a →
      strContains msg "503" = true →
      (run_with_trace probe q ts (StreamInput.rich events (StreamOutcome.exn msg)) st).1 = none
      ∧ ("❌ Error: " ++ msg)
          ∈ (run_with_trace probe q ts (StreamInput.rich events (StreamOutcome.exn msg))
              st).2.sessionLines
      ∧ (run_with_trace probe q ts (StreamInput.rich events (StreamOutcome.exn msg))
          st).2.agentState.cachedAgent = none
      ∧ 1 ≤ (get_agent probe
          (run_with_trace probe q ts (StreamInput.rich events (StreamOutcome.exn msg))
            st).2.agentState).2.2 := by
  intro probe st a q ts msg events h1 h2
  have hg : get_agent probe st.agentState = (Except.ok a, st.agentState, 0) := by
    simp [get_agent, h1]
  have hag : (run_with_trace probe q ts (StreamInput.rich events (StreamOutcome.exn msg))
      st).2.agentState = reset_agent st.agentState := by
    simp only [run_with_trace, hg]
    rw [runRich_exn_agent]
    simp [h2]
  refine ⟨?_, ?_, ?_, ?_⟩
  · simp [run_with_trace, hg]
  · simp only [run_with_trace, hg]
    exact runRich_exn_mem st.agentState events msg (st.sessionLines ++ headerLines q ts)
  · rw [hag]; rfl
  · rw [hag]
    exact tryModels_probes_pos probe (reset_agent st.agentState)

/-- C3 witness: a concrete 503 failure mid-stream. -/
theorem c3_witness :
    (run_with_trace (fun _ => false) "q" "t"
        (StreamInput.rich [] (StreamOutcome.exn "Error code: 503"))
        ⟨[], some ⟨"m"⟩, "m"⟩).1 = none
    ∧ ("❌ Error: " ++ "Error code: 503")
        ∈ (run_with_trace (fun _ => false) "q" "t"
            (StreamInput.rich [] (StreamOutcome.exn "Error code: 503"))
            ⟨[], some ⟨"m"⟩, "m"⟩).2.sessionLines
    ∧ (run_with_trace (fun _ => false) "q" "t"
        (StreamInput.rich [] (StreamOutcome.exn "Error code: 503"))
        ⟨[], some ⟨"m"⟩, "m"⟩).2.agentState.cachedAgent = none
    ∧ 1 ≤ (get_agent (fun _ => false)
        (run_with_trace (fun _ => false) "q" "t"
          (StreamInput.rich [] (StreamOutcome.exn "Error code: 503"))
          ⟨[], some ⟨"m"⟩, "m"⟩).2.agentState).2.2 :=
  c3_stream_503_returns_normally_and_invalidates (fun _ => false)
    ⟨[], some ⟨"m"⟩, "m"⟩ ⟨"m"⟩ "q" "t" "Error code: 503" [] rfl (by decide)

/-- C4 counterexample: an exception message containing "429" (but also
"503") does invalidate the cached handle — the 503 branch is checked first,
so the claim as stated fails for such messages. -/
theorem c4_counterexample_mixed_503_429 :
    strContains "503 Service Unavailable (429)" "429" = true
    ∧ (run_with_trace (fun _ => true) "q" "t"
        (StreamInput.rich [] (StreamOutcome.exn "503 Service Unavailable (429)"))
        ⟨[], some ⟨"m"⟩, "m"⟩).2.agentState.cachedAgent = none := by
  constructor
  · decide
  · rfl

/-- C4 (amended): when the stream raises an exception whose message contains
"429" and contains neither "503" nor "over capacity", `run_with_trace`
returns normally, appends an error session line, leaves the agent state
(hence the cached handle) untouched, and the next `get_agent` call returns
the same handle with no probe. -/
theorem c4_rate_limit_preserves_cached_agent :
    ∀ (probe : String → Bool) (st : TraceState) (a : Agent) (q ts msg : String)
      (events : List Chunk),
      st.agentState.cachedAgent = some a →
      strContains msg "503" = false →
      strContains msg "over capacity" = false →
      strContains msg "429" = true →
      (run_with_trace probe q ts (StreamInput.rich events (StreamOutcome.exn msg)) st).1 = none
      ∧ ("❌ Error: " ++ msg)
          ∈ (run_with_trace probe q ts (StreamInput.rich events (StreamOutcome.exn msg))
              st).2.sessionLines
      ∧ (run_with_trace probe q ts (StreamInput.rich events (StreamOutcome.exn msg))
          st).2.agentState = st.agentState
      ∧ get_agent probe
          (run_with_trace probe q ts (StreamInput.rich events (StreamOutcome.exn msg))
            st).2.agentState = (Except.ok a, st.agentState, 0) := by
  intro probe st a q ts msg events h1 h503 hoc _h429
  have hg : get_agent probe st.agentState = (Except.ok a, st.agentState, 0) := by
    simp [get_agent, h1]
  have hag : (run_with_trace probe q ts (StreamInput.rich events (StreamOutcome.exn msg))
      st).2.agentState = st.agentState := by
    simp only [run_with_trace, hg]
    rw [runRich_exn_agent]
    simp [h503, hoc]
  refine ⟨?_, ?_, hag, ?_⟩
  · simp [run_with_trace, hg]
  · simp only [run_with_trace, hg]
    exact runRich_exn_mem st.agentState events msg (st.sessionLines ++ headerLines q ts)
  · rw [hag]
    exact hg

/-- C4 witness: a concrete pure rate-limit failure. -/
theorem c4_witness :
    (run_with_trace (fun _ => false) "q" "t"
        (StreamInput.rich [] (StreamOutcome.exn "429 Too Many Requests"))
        ⟨[], some ⟨"m"⟩, "m"⟩).1 = none
    ∧ ("❌ Error: " ++ "429 Too Many Requests")
        ∈ (run_with_trace (fun _ => false) "q" "t"
            (StreamInput.rich [] (StreamOutcome.exn "429 Too Many Requests"))
            ⟨[], some ⟨"m"⟩, "m"⟩).2.sessionLines
    ∧ (run_with_trace (fun _ => false) "q" "t"
        (StreamInput.rich [] (StreamOutcome.exn "429 Too Many Requests"))
        ⟨[], some ⟨"m"⟩, "m"⟩).2.agentState = ⟨some ⟨"m"⟩, "m"⟩
    ∧ get_agent (fun _ => false)
        (run_with_trace (fun _ => false) "q" "t"
          (StreamInput.rich [] (StreamOutcome.exn "429 Too Many Requests"))
          ⟨[], some ⟨"m"⟩, "m"⟩).2.agentState
        = (Except.ok ⟨"m"⟩, ⟨some ⟨"m"⟩, "m"⟩, 0) :=
  c4_rate_limit_preserves_cached_agent (fun _ => false)
    ⟨[], some ⟨"m"⟩, "m"⟩ ⟨"m"⟩ "q" "t" "429 Too Many Requests" []
    rfl (by decide) (by decide) (by decide)

/-- C7 counterexample: in plain mode (`PLAIN_OUTPUT=1`), a user interruption
during streaming propagates out of `run_with_trace` (Python catches only
`Exception`, and `KeyboardInterrupt` is not one), and no interruption
session line is appended — so the claim fails for plain-mode runs. -/
theorem c7_counterexample_plain_interrupt :
    (run_with_trace (fun _ => true) "q" "t"
        (StreamInput.plain [] StreamOutcome.interrupt)
        ⟨[], some ⟨"m"⟩, "m"⟩).1 = some "KeyboardInterrupt"
    ∧ "⚠️  Interrupted by user." ∉
        (run_with_trace (fun _ => true) "q" "t"
          (StreamInput.plain [] StreamOutcome.interrupt)
          ⟨[], some ⟨"m"⟩, "m"⟩).2.sessionLines := by
  constructor
  · rfl
  · decide

/-- C7 (amended): in rich display mode, a user interruption while the agent
stream is being consumed makes `run_with_trace` stop cleanly: it appends the
interruption session line and returns normally. -/
theorem c7_rich_interrupt_returns_normally :
    ∀ (probe : String → Bool) (st : TraceState) (a : Agent) (q ts : String)
      (events : List Chunk),
      st.agentState.cachedAgent = some a →
      (run_with_trace probe q ts (StreamInput.rich events StreamOutcome.interrupt) st).1 = none
      ∧ "⚠️  Interrupted by user."
          ∈ (run_with_trace probe q ts (StreamInput.rich events StreamOutcome.interrupt)
              st).2.sessionLines := by
  intro probe st a q ts events h1
  have hg : get_agent probe st.agentState = (Except.ok a, st.agentState, 0) := by
    simp [get_agent, h1]
  constructor
  · simp [run_with_trace, hg]
  · simp only [run_with_trace, hg]
    exact runRich_interrupt_mem st.agentState events (st.sessionLines ++ headerLines q ts)

/-- C7 witness: a concrete rich-mode interruption. -/
theorem c7_witness :
    (run_with_trace (fun _ => true) "q" "t"
        (StreamInput.rich [] StreamOutcome.interrupt)
        ⟨[], some ⟨"m"⟩, "m"⟩).1 = none
    ∧ "⚠️  Interrupted by user."
        ∈ (run_with_trace (fun _ => true) "q" "t"
            (StreamInput.rich [] StreamOutcome.interrupt)
            ⟨[], some ⟨"m"⟩, "m"⟩).2.sessionLines :=
  c7_rich_interrupt_returns_normally (fun _ => true)
    ⟨[], some ⟨"m"⟩, "m"⟩ ⟨"m"⟩ "q" "t" [] rfl

/-! ## C9 — the session trace is append-only -/

/-- C9: across any sequence of run and flush operations the session trace
only grows — the previous lines stay an unchanged prefix; each run that
acquires an agent appends the question header before any streaming output;
flushing never changes the lines; only `clear_session` removes lines. -/
theorem c9_session_trace_append_only :
    (∀ (ops : List TraceOp) (st : TraceState),
      ∃ t, (ops.foldl applyOp st).sessionLines = st.sessionLines ++ t)
    ∧ (∀ (probe : String → Bool) (q ts : String) (input : StreamInput)
        (st : TraceState) (a : Agent),
      (get_agent probe st.agentState).1 = Except.ok a →
      ∃ t, (run_with_trace probe q ts input st).2.sessionLines
            = st.sessionLines ++ headerLines q ts ++ t)
    ∧ (∀ (lines : List String) (ts : String) (plain : Bool),
      (save_session_trace lines ts plain).1 = lines)
    ∧ (∀ lines : List String, clear_session lines = []) := by
  refine ⟨?_, ?_, save_session_trace_fst, fun _ => rfl⟩
  · intro ops
    induction ops with
    | nil => intro st; exact ⟨[], by simp⟩
    | cons op ops ih =>
      intro st
      obtain ⟨t1, h1⟩ := applyOp_extends st op
      obtain ⟨t2, h2⟩ := ih (applyOp st op)
      refine ⟨t1 ++ t2, ?_⟩
      rw [List.foldl_cons, h2, h1, List.append_assoc]
  · intro probe q ts input st a hg
    cases input with
    | rich events outcome =>
      obtain ⟨t, ht⟩ := runRich_extends (get_agent probe st.agentState).2.1 events outcome
        (st.sessionLines ++ headerLines q ts)
      exact ⟨t, by simp [run_with_trace, hg, ht]⟩
    | plain events outcome =>
      obtain ⟨t, ht⟩ := runPlain_extends events outcome (st.sessionLines ++ headerLines q ts)
      exact ⟨t, by simp [run_with_trace, hg, ht]⟩

/-- C9 witness: a concrete run appends the question header and then only
streaming lines, on top of the untouched previous lines. -/
theorem c9_witness :
    ∃ t, (run_with_trace (fun _ => true) "q" "t"
        (StreamInput.rich [] StreamOutcome.normal)
        ⟨["old"], some ⟨"m"⟩, "m"⟩).2.sessionLines
      = ["old"] ++ headerLines "q" "t" ++ t :=
  c9_session_trace_append_only.2.1 (fun _ => true) "q" "t"
    (StreamInput.rich [] StreamOutcome.normal)
    ⟨["old"], some ⟨"m"⟩, "m"⟩ ⟨"m"⟩ rfl

/-! ## C10 — flushing an empty session trace is a no-op -/

/-- C10: with an empty accumulated session trace, `save_session_trace`
returns immediately: the trace stays empty, no file is written, and no
console output is produced. -/
theorem c10_flush_empty_is_noop :
    ∀ (ts : String) (plain : Bool),
      save_session_trace [] ts plain = ([], none, []) := by
  intro ts plain
  rfl

end ResearchAgent
